import Mathlib

/-!
Shallow embedding of the petstore backend services
(`src/services/petService.ts`, `src/services/categoryService.ts`,
`src/services/openapiService.ts`, `src/utils/errorHandler.ts`) over an
explicit relational store that models the Prisma client together with the
schema constraints of the initial migration: a unique index on
`Category.name`, and the nullable foreign key `Pet.categoryId` referencing
`Category.id` with ON DELETE SET NULL.

Each TypeScript service method becomes a Lean function from a `Store` to a
result paired with the updated `Store`; thrown `AppError`s become the
`Except.error` branch. Methods whose advisory read and whose write may see
different snapshots under concurrency are parameterised by the two
snapshots; the race-free method instantiates both with the same store.
-/

deriving instance DecidableEq for Except

namespace Petstore

/-- A `Category` row: id SERIAL, name TEXT with a unique index. -/
structure Category where
  id : Nat
  name : String
deriving DecidableEq, Repr

/-- A `Pet` row: id SERIAL, name TEXT, status TEXT, nullable foreign key
`categoryId`, and `createdAt` modelled as a logical timestamp used by the
orderBy queries. The store column is nullable, but the service layer only
ever writes string statuses, so `status` is modelled as `String`. -/
structure Pet where
  id : Nat
  name : String
  status : String
  categoryId : Option Nat
  createdAt : Nat
deriving DecidableEq, Repr

/-- The relational store behind the Prisma client: the two tables plus the
SERIAL sequences and the logical clock feeding `createdAt`. -/
structure Store where
  categories : List Category
  pets : List Pet
  nextCategoryId : Nat
  nextPetId : Nat
  now : Nat
deriving DecidableEq, Repr

/-- The `details` payloads the services attach to errors: one constructor
per object shape appearing in the source. -/
inductive ErrDetails where
  | dId (id : Nat)
  | dName (name : String)
  | dCategoryId (categoryId : Nat)
  | dStatus (status : String) (validStatuses : List String)
  | dIdPetCount (id : Nat) (petCount : Nat)
  | dErrorMsg (err : String)
deriving DecidableEq, Repr

/-- `AppError` from `src/utils/errorHandler.ts`: code, message, HTTP status
code, and optional details. -/
structure AppError where
  code : String
  message : String
  statusCode : Nat
  details : Option ErrDetails
deriving DecidableEq, Repr

/-- `NotFoundError`: fixes code NOT_FOUND and status 404. -/
def NotFoundError (message : String) (details : Option ErrDetails) : AppError :=
  { code := "NOT_FOUND", message := message, statusCode := 404, details := details }

/-- `ValidationError`: fixes code VALIDATION_ERROR and status 422. -/
def ValidationError (message : String) (details : Option ErrDetails) : AppError :=
  { code := "VALIDATION_ERROR", message := message, statusCode := 422, details := details }

/-- `BadRequestError`: fixes code BAD_REQUEST and status 400. -/
def BadRequestError (message : String) (details : Option ErrDetails) : AppError :=
  { code := "BAD_REQUEST", message := message, statusCode := 400, details := details }

/-- A `PrismaClientKnownRequestError`: its error code (P2002, P2025, ...)
and message. -/
structure PrismaKnownError where
  code : String
  message : String
deriving DecidableEq, Repr

/-- JavaScript `String.prototype.trim`: drop leading and trailing
whitespace, modelled over the character list of the string. -/
def trim (s : String) : String :=
  String.mk (((s.data.dropWhile Char.isWhitespace).reverse.dropWhile
    Char.isWhitespace).reverse)

/-- `prisma.category.findUnique` by id. -/
def Category.findUnique (s : Store) (id : Nat) : Option Category :=
  s.categories.find? (fun c => c.id == id)

/-- `prisma.category.findFirst` filtered by exact name. -/
def Category.findFirstByName (s : Store) (name : String) : Option Category :=
  s.categories.find? (fun c => c.name == name)

/-- `prisma.category.create`: the store enforces the unique index on
`Category.name`, raising P2002 on a violation. -/
def Category.create (s : Store) (name : String) :
    Except PrismaKnownError (Category × Store) :=
  if s.categories.any (fun c => c.name == name) then
    .error { code := "P2002", message := "Unique constraint failed on the fields: (`name`)" }
  else
    let c : Category := { id := s.nextCategoryId, name := name }
    .ok (c, { s with categories := s.categories ++ [c],
                     nextCategoryId := s.nextCategoryId + 1 })

/-- `prisma.category.delete` by id: P2025 when the row is missing;
on success the referencing pets get `categoryId` set to null, per the
ON DELETE SET NULL clause of the foreign key. -/
def Category.delete (s : Store) (id : Nat) : Except PrismaKnownError Store :=
  match Category.findUnique s id with
  | none => .error { code := "P2025", message := "Record to delete does not exist." }
  | some _ =>
      .ok { s with
        categories := s.categories.filter (fun c => c.id != id),
        pets := s.pets.map (fun p =>
          if p.categoryId == some id then { p with categoryId := none } else p) }

/-- The pets referencing a category, as returned by the
`include: pets` relation load. -/
def petsOf (s : Store) (categoryId : Nat) : List Pet :=
  s.pets.filter (fun p => p.categoryId == some categoryId)

/-- `CategoryService.createCategory`, with the advisory pre-check reading
snapshot `s` and the write running against snapshot `sWrite`; the two
differ only when a concurrent request commits in between. Mirrors the
source: empty-name guard, `findFirst` duplicate pre-check on the untrimmed
name, then `create` of the trimmed name with the P2002 catch translated to
the same duplicate `ValidationError`, and other known request errors to a
generic `ValidationError`. -/
def createCategoryOn (s sWrite : Store) (name : String) :
    Except AppError Category × Store :=
  if name = "" ∨ (trim name).length = 0 then
    (.error (ValidationError "Category name is required" (some (.dName name))), sWrite)
  else
    match Category.findFirstByName s name with
    | some _ =>
        (.error (ValidationError "Category with this name already exists"
          (some (.dName name))), sWrite)
    | none =>
        match Category.create sWrite (trim name) with
        | .ok (c, s2) => (.ok c, s2)
        | .error e =>
            if e.code = "P2002" then
              (.error (ValidationError "Category with this name already exists"
                (some (.dName name))), sWrite)
            else
              (.error (ValidationError "Failed to create category"
                (some (.dErrorMsg e.message))), sWrite)

/-- `CategoryService.createCategory`, race-free instance. -/
def createCategory (s : Store) (name : String) : Except AppError Category × Store :=
  createCategoryOn s s name

/-- `CategoryService.getCategoryById`. The source also rejects
non-integer ids; with ids modelled as `Nat` only the `id < 1` branch of
that guard is representable. -/
def getCategoryById (s : Store) (id : Nat) : Except AppError Category × Store :=
  if id < 1 then
    (.error (BadRequestError "Invalid category ID" (some (.dId id))), s)
  else
    match Category.findUnique s id with
    | none => (.error (NotFoundError "Category not found" (some (.dId id))), s)
    | some c => (.ok c, s)

/-- `CategoryService.deleteCategory`: id guard, existence check with the
pets relation loaded, refusal while pets reference the category, then the
delete with P2025 translated to NotFound. -/
def deleteCategory (s : Store) (id : Nat) : Except AppError Unit × Store :=
  if id < 1 then
    (.error (BadRequestError "Invalid category ID" (some (.dId id))), s)
  else
    match Category.findUnique s id with
    | none => (.error (NotFoundError "Category not found" (some (.dId id))), s)
    | some _ =>
        let pets := petsOf s id
        if pets.length > 0 then
          (.error (ValidationError
            "Cannot delete category with associated pets. Please remove or reassign pets first."
            (some (.dIdPetCount id pets.length))), s)
        else
          match Category.delete s id with
          | .ok s2 => (.ok (), s2)
          | .error e =>
              if e.code = "P2025" then
                (.error (NotFoundError "Category not found" (some (.dId id))), s)
              else
                (.error (ValidationError "Failed to delete category"
                  (some (.dErrorMsg e.message))), s)

/-- Tests that a service result failed with a Validation-class error:
code VALIDATION_ERROR and HTTP status 422. -/
def isValidationErr {α : Type} : Except AppError α → Bool
  | .error e => e.code == "VALIDATION_ERROR" && e.statusCode == 422
  | .ok _ => false

/-- The valid pet statuses (`validStatuses` in the source). -/
def validStatuses : List String := ["available", "pending", "sold"]

/-- `prisma.pet.findUnique` by id. -/
def Pet.findUnique (s : Store) (id : Nat) : Option Pet :=
  s.pets.find? (fun p => p.id == id)

/-- The fresh row a `prisma.pet.create` call inserts: the next SERIAL id,
with `createdAt` stamped from the logical clock. -/
def Pet.newRow (s : Store) (name status : String) (categoryId : Option Nat) : Pet :=
  { id := s.nextPetId, name := name, status := status,
    categoryId := categoryId, createdAt := s.now }

/-- The insertion step shared by `prisma.pet.create`. -/
def Pet.createRow (s : Store) (name status : String) (categoryId : Option Nat) :
    Except PrismaKnownError (Pet × Store) :=
  let p : Pet := Pet.newRow s name status categoryId
  .ok (p, { s with pets := s.pets ++ [p],
                   nextPetId := s.nextPetId + 1, now := s.now + 1 })

/-- `prisma.pet.create`: the store enforces the foreign key on a non-null
`categoryId`, raising P2003 on a violation. -/
def Pet.create (s : Store) (name status : String) (categoryId : Option Nat) :
    Except PrismaKnownError (Pet × Store) :=
  match categoryId with
  | some cid =>
      if s.categories.any (fun c => c.id == cid) then
        Pet.createRow s name status categoryId
      else
        .error { code := "P2003",
                 message := "Foreign key constraint failed on the field: Pet_categoryId_fkey" }
  | none => Pet.createRow s name status categoryId

/-- The column update shared by `prisma.pet.update`: an absent
(`undefined`) field leaves the column unchanged, a present field
overwrites it (`some none` on `categoryId` writes NULL). -/
def Pet.applyUpdate (old : Pet) (name : Option String)
    (status : Option String) (categoryId : Option (Option Nat)) : Pet :=
  { old with name := name.getD old.name,
             status := status.getD old.status,
             categoryId := categoryId.getD old.categoryId }

/-- The row replacement performed by a successful `prisma.pet.update`. -/
def Pet.updateRow (s : Store) (old : Pet) (name : Option String)
    (status : Option String) (categoryId : Option (Option Nat)) :
    Except PrismaKnownError (Pet × Store) :=
  let p : Pet := Pet.applyUpdate old name status categoryId
  .ok (p, { s with pets := s.pets.map (fun q => if q.id == old.id then p else q) })

/-- `prisma.pet.update` by id: P2025 when the row is missing; setting a
non-null `categoryId` enforces the foreign key (P2003). -/
def Pet.update (s : Store) (id : Nat) (name : Option String)
    (status : Option String) (categoryId : Option (Option Nat)) :
    Except PrismaKnownError (Pet × Store) :=
  match Pet.findUnique s id with
  | none => .error { code := "P2025", message := "Record to update not found." }
  | some old =>
      match categoryId with
      | some (some cid) =>
          if s.categories.any (fun c => c.id == cid) then
            Pet.updateRow s old name status categoryId
          else
            .error { code := "P2003",
                     message := "Foreign key constraint failed on the field: Pet_categoryId_fkey" }
      | _ => Pet.updateRow s old name status categoryId

/-- Input of `PetService.createPet`. Under create, an `undefined` and an
explicitly null `categoryId` behave identically (both skip the category
check and store NULL), so both are modelled as `none`. -/
structure PetCreateInput where
  name : String
  status : Option String
  categoryId : Option Nat
deriving DecidableEq, Repr

/-- Input of `PetService.updatePet`: on `categoryId` the outer option is
presence (`none` for `undefined`), the inner option is nullability. -/
structure PetUpdateInput where
  id : Nat
  name : Option String
  status : Option String
  categoryId : Option (Option Nat)
deriving DecidableEq, Repr

/-- The write step of createPet: `status: data.status || available`
(the falsy empty string also falls back to `available`), with known
request errors translated to a generic `ValidationError`. -/
def createPetWrite (s : Store) (d : PetCreateInput) : Except AppError Pet × Store :=
  let st := match d.status with
            | some st => if st = "" then "available" else st
            | none => "available"
  match Pet.create s d.name st d.categoryId with
  | .ok (p, s2) => (.ok p, s2)
  | .error e =>
      (.error (ValidationError "Failed to create pet" (some (.dErrorMsg e.message))), s)

/-- createPet after the category check: the status-enum guard
`data.status && !validStatuses.includes(data.status)` — an absent or
empty (falsy) status skips the check — then the write. -/
def createPetChecked (s : Store) (d : PetCreateInput) : Except AppError Pet × Store :=
  match d.status with
  | some st =>
      if st != "" && !(validStatuses.contains st) then
        (.error (ValidationError "Invalid status value"
          (some (.dStatus st validStatuses))), s)
      else createPetWrite s d
  | none => createPetWrite s d

/-- `PetService.createPet`: category-existence check when a categoryId is
provided, status-enum guard, then the write. -/
def createPet (s : Store) (d : PetCreateInput) : Except AppError Pet × Store :=
  match d.categoryId with
  | some cid =>
      match Category.findUnique s cid with
      | none =>
          (.error (ValidationError "Category not found" (some (.dCategoryId cid))), s)
      | some _ => createPetChecked s d
  | none => createPetChecked s d

/-- The write step of updatePet, against the write snapshot: the P2025
catch maps to NotFound, other known request errors to a generic
`ValidationError`. -/
def updatePetWrite (sWrite : Store) (d : PetUpdateInput) : Except AppError Pet × Store :=
  match Pet.update sWrite d.id d.name d.status d.categoryId with
  | .ok (p, s2) => (.ok p, s2)
  | .error e =>
      if e.code = "P2025" then
        (.error (NotFoundError "Pet not found" (some (.dId d.id))), sWrite)
      else
        (.error (ValidationError "Failed to update pet" (some (.dErrorMsg e.message))), sWrite)

/-- updatePet after the existence and category checks: the same
truthiness-guarded status-enum check as createPet, then the write. -/
def updatePetChecked (sWrite : Store) (d : PetUpdateInput) : Except AppError Pet × Store :=
  match d.status with
  | some st =>
      if st != "" && !(validStatuses.contains st) then
        (.error (ValidationError "Invalid status value"
          (some (.dStatus st validStatuses))), sWrite)
      else updatePetWrite sWrite d
  | none => updatePetWrite sWrite d

/-- `PetService.updatePet`, with the advisory reads (pet existence,
category existence) against snapshot `s` and the write against snapshot
`sWrite`: existence check first (NotFound), then the category check on a
present non-null categoryId (Validation), the status guard, and the
write. -/
def updatePetOn (s sWrite : Store) (d : PetUpdateInput) : Except AppError Pet × Store :=
  match Pet.findUnique s d.id with
  | none => (.error (NotFoundError "Pet not found" (some (.dId d.id))), sWrite)
  | some _ =>
      match d.categoryId with
      | some (some cid) =>
          match Category.findUnique s cid with
          | none =>
              (.error (ValidationError "Category not found"
                (some (.dCategoryId cid))), sWrite)
          | some _ => updatePetChecked sWrite d
      | _ => updatePetChecked sWrite d

/-- `PetService.updatePet`, race-free instance. -/
def updatePet (s : Store) (d : PetUpdateInput) : Except AppError Pet × Store :=
  updatePetOn s s d

/-- Insertion into a list sorted by `createdAt` descending. -/
def insertByCreatedAtDesc (p : Pet) : List Pet → List Pet
  | [] => [p]
  | q :: qs =>
      if p.createdAt ≤ q.createdAt then q :: insertByCreatedAtDesc p qs
      else p :: q :: qs

/-- Newest-first ordering (`orderBy createdAt desc`). -/
def sortByCreatedAtDesc : List Pet → List Pet
  | [] => []
  | p :: ps => insertByCreatedAtDesc p (sortByCreatedAtDesc ps)

/-- `PetService.findPetsByStatus`; `none` stands for an omitted argument,
to which the source applies the declared default parameter value
`available`. -/
def findPetsByStatus (s : Store) (status : Option String) :
    Except AppError (List Pet) × Store :=
  let st := status.getD "available"
  if !(validStatuses.contains st) then
    (.error (BadRequestError "Invalid status value"
      (some (.dStatus st validStatuses))), s)
  else
    (.ok (sortByCreatedAtDesc (s.pets.filter (fun p => p.status == st))), s)

/-- An empty store, with the SERIAL sequences at their initial value. -/
def emptyStore : Store :=
  { categories := [], pets := [], nextCategoryId := 1, nextPetId := 1, now := 0 }

/-- A small populated store: one category and one pet referencing it. -/
def demoStore : Store :=
  { categories := [{ id := 1, name := "Dogs" }],
    pets := [{ id := 1, name := "Balu", status := "available",
               categoryId := some 1, createdAt := 0 }],
    nextCategoryId := 2, nextPetId := 2, now := 1 }


/-- The error body shape `code, message, details?` sent on failures. -/
structure ErrorBody where
  code : String
  message : String
  details : Option ErrDetails
deriving DecidableEq, Repr

/-- A response body: a formatted pet (category embedded when present), an
error body, or the plain message object some handlers send. -/
inductive ResponseBody where
  | petBody (id : Nat) (name : String) (status : String) (category : Option Category)
  | errorBody (e : ErrorBody)
  | messageBody (message : String)
deriving DecidableEq, Repr

/-- An HTTP reply: status code and JSON body. -/
structure HttpResponse where
  status : Nat
  body : ResponseBody
deriving DecidableEq, Repr

/-- `reply.status(status).send(error body)`. -/
def sendError (status : Nat) (code message : String)
    (details : Option ErrDetails) : HttpResponse :=
  { status := status,
    body := .errorBody { code := code, message := message, details := details } }

/-- A value reaching the catch block of an operation handler: one of the
typed `AppError`s, or any other thrown value (its name and message). -/
inductive Thrown where
  | app (e : AppError)
  | other (name message : String)
deriving DecidableEq, Repr

/-- `OpenAPIServiceHandler.handleError`: a typed `AppError` is emitted as
its own code, message and details with its statusCode; anything else
becomes the fixed INTERNAL_ERROR body with status 500 and no details. -/
def handleError (err : Thrown) : HttpResponse :=
  match err with
  | .app e => sendError e.statusCode e.code e.message e.details
  | .other _ _ => sendError 500 "INTERNAL_ERROR" "An unexpected error occurred" none

/-- `formatPetResponse`, with the category relation materialised from the
store snapshot the row was returned with. -/
def formatPetResponse (s : Store) (p : Pet) : ResponseBody :=
  .petBody p.id p.name p.status (p.categoryId.bind (Category.findUnique s))

/-- The category object of a PUT /pet body. -/
structure CategoryRef where
  id : Option Nat
deriving DecidableEq, Repr

/-- The PUT /pet request body as the updatePet handler reads it. -/
structure UpdatePetBody where
  id : Option Nat
  name : Option String
  status : Option String
  category : Option CategoryRef
deriving DecidableEq, Repr

/-- The categoryId argument the updatePet handler passes to the service:
`body.category?.id ?? null` — always a present value, null whenever the
category object or its id is absent. -/
def updatePetCategoryIdArg (body : UpdatePetBody) : Option (Option Nat) :=
  some (body.category.bind (fun c => c.id))

/-- `OpenAPIServiceHandler.updatePet`: the falsy-id guard (absent or zero
id answered 400 INVALID_INPUT), then the service call with the body
fields and `categoryId` built by `updatePetCategoryIdArg`; a service
error goes through `handleError`. -/
def handlerUpdatePet (s : Store) (body : UpdatePetBody) : HttpResponse × Store :=
  match body.id with
  | none => (sendError 400 "INVALID_INPUT" "Pet ID is required" none, s)
  | some i =>
      if i = 0 then
        (sendError 400 "INVALID_INPUT" "Pet ID is required" none, s)
      else
        match updatePet s { id := i, name := body.name, status := body.status,
                            categoryId := updatePetCategoryIdArg body } with
        | (.ok p, s2) => ({ status := 200, body := formatPetResponse s2 p }, s2)
        | (.error e, s2) => (handleError (.app e), s2)

/-- A `FastifyError` as the central errorHandler inspects it: name,
message, optional code and statusCode, the schema-validation payload when
present, the Prisma `meta` object, and the stack standing in for the
development-mode details. -/
structure FastifyErr where
  name : String
  message : String
  code : Option String
  statusCode : Option Nat
  validation : Option ErrDetails
  meta : Option ErrDetails
  stack : String
deriving DecidableEq, Repr

/-- A value reaching the central Fastify error handler. -/
inductive CaughtError where
  | app (e : AppError)
  | fastify (e : FastifyErr)
deriving DecidableEq, Repr

/-- `errorHandler` from `src/utils/errorHandler.ts`: AppError passthrough;
schema-validation failures as 400 VALIDATION_ERROR; Prisma P2002 as 409
DUPLICATE_ENTRY and P2025 as 404 NOT_FOUND; and the default branch using
`error.statusCode || 500` and `error.code || INTERNAL_SERVER_ERROR`, the
message masked to `Internal server error` at status 500, details attached
only in development mode (`devMode`). -/
def errorHandler (devMode : Bool) (err : CaughtError) : HttpResponse :=
  match err with
  | .app e => sendError e.statusCode e.code e.message e.details
  | .fastify e =>
      match e.validation with
      | some v => sendError 400 "VALIDATION_ERROR" "Request validation failed" (some v)
      | none =>
          if e.name = "PrismaClientKnownRequestError" ∧ e.code = some "P2002" then
            sendError 409 "DUPLICATE_ENTRY" "A record with this value already exists" e.meta
          else if e.name = "PrismaClientKnownRequestError" ∧ e.code = some "P2025" then
            sendError 404 "NOT_FOUND" "Record not found" none
          else
            let statusCode := e.statusCode.getD 500
            sendError statusCode (e.code.getD "INTERNAL_SERVER_ERROR")
              (if statusCode = 500 then "Internal server error" else e.message)
              (if devMode then some (.dErrorMsg e.stack) else none)


/-- A generic untyped thrown error, as the Fastify handler would see a
plain `new Error("boom")`: no code, no statusCode, no validation payload. -/
def genericThrownError : FastifyErr :=
  { name := "Error", message := "boom", code := none, statusCode := none,
    validation := none, meta := none, stack := "trace" }


/-- Store well-formedness for SERIAL id generation on categories: every
stored category id is below the sequence value, which is at least 1 (so a
generated id is a fresh positive integer). -/
def Store.categoriesWF (s : Store) : Prop :=
  1 ≤ s.nextCategoryId ∧ ∀ c ∈ s.categories, c.id < s.nextCategoryId

/-- The store state after creating the `Birds` category on `demoStore`. -/
def demoStoreAfterBirds : Store :=
  { categories := [{ id := 1, name := "Dogs" }, { id := 2, name := "Birds" }],
    pets := demoStore.pets, nextCategoryId := 3, nextPetId := 2, now := 1 }

/-- A string of length zero is the empty string. -/
theorem length_zero_eq_empty {s : String} (h : s.length = 0) : s = "" := by
  cases s with
  | mk data =>
    cases data with
    | nil => rfl
    | cons c cs => simp [String.length] at h

/-- C1: an attempt to create a category whose name matches an existing
name fails with the duplicate `ValidationError` (code VALIDATION_ERROR,
status 422), and the error value is the same on both paths: when the
advisory `findFirst` pre-check sees the duplicate in its snapshot `s`, and
when the pre-check misses it but the unique-constraint violation (P2002)
fires against the write snapshot `sWrite`. -/
theorem createCategory_duplicate_validation (s sWrite : Store) (name : String)
    (hne : trim name ≠ "")
    (hdup : (∃ c ∈ s.categories, c.name = name) ∨
      ((∀ c ∈ s.categories, c.name ≠ name) ∧
        ∃ c ∈ sWrite.categories, c.name = trim name)) :
    (createCategoryOn s sWrite name).1 =
      .error (ValidationError "Category with this name already exists"
        (some (.dName name))) := by
  unfold createCategoryOn
  rw [if_neg (by
    rintro (rfl | hlen)
    · exact hne rfl
    · exact hne (length_zero_eq_empty hlen))]
  cases hfind : Category.findFirstByName s name with
  | some c0 => simp
  | none =>
    simp only []
    rcases hdup with ⟨c0, hc0, hname⟩ | ⟨hnodup, c1, hc1, hname⟩
    · exfalso
      simp only [Category.findFirstByName, List.find?_eq_none] at hfind
      exact hfind c0 hc0 (by simp [hname])
    · have hany : (sWrite.categories.any fun c => c.name == trim name) = true :=
        List.any_eq_true.mpr ⟨c1, hc1, by simp [hname]⟩
      unfold Category.create
      rw [if_pos hany]
      simp

/-- Witness for C1: the pre-check path on `demoStore`, and the race path
where the pre-check snapshot is empty but the write snapshot already holds
the duplicate. -/
theorem createCategory_duplicate_validation_witness :
    (createCategoryOn demoStore demoStore "Dogs").1 =
      .error (ValidationError "Category with this name already exists"
        (some (.dName "Dogs"))) ∧
    (createCategoryOn emptyStore demoStore "Dogs").1 =
      .error (ValidationError "Category with this name already exists"
        (some (.dName "Dogs"))) :=
  ⟨createCategory_duplicate_validation demoStore demoStore "Dogs" (by decide)
      (Or.inl ⟨{ id := 1, name := "Dogs" }, by decide, rfl⟩),
   createCategory_duplicate_validation emptyStore demoStore "Dogs" (by decide)
      (Or.inr ⟨by decide, { id := 1, name := "Dogs" }, by decide, by decide⟩)⟩

/-- A present, non-empty status outside the enum makes createPet fail
with a Validation-class error: the invalid-status error, or the
category-not-found error when that check fails first. -/
theorem createPet_invalid_status_isValidation :
    ∀ (s : Store) (d : PetCreateInput) (st : String),
      d.status = some st → st ≠ "" → st ∉ validStatuses →
      isValidationErr (createPet s d).1 = true := by
  intro s d st hst hne hmem
  cases hcid : d.categoryId with
  | none =>
      simp [createPet, hcid, createPetChecked, hst, hne, hmem,
        isValidationErr, ValidationError]
  | some cid =>
      cases hfind : Category.findUnique s cid with
      | none =>
          simp [createPet, hcid, hfind, isValidationErr, ValidationError]
      | some c =>
          simp [createPet, hcid, hfind, createPetChecked, hst, hne, hmem,
            isValidationErr, ValidationError]

/-- C2 counterexample: the empty-string status is outside the enum, yet
createPet does not fail — the truthiness guard skips falsy statuses and
the pet is stored with status `available`. -/
theorem createPet_empty_status_counterexample :
    validStatuses.contains "" = false ∧
    (createPet demoStore { name := "Rex", status := some "", categoryId := none }).1 =
      .ok { id := 2, name := "Rex", status := "available",
            categoryId := none, createdAt := 1 } :=
  ⟨by decide, by decide⟩

/-- C2 (amended): a present, non-empty status outside the enum makes
createPet fail with a Validation error; a pet created with the status
field omitted (and a categoryId that is absent or resolves) is persisted
with status exactly `available`. -/
theorem createPet_status_enum_and_default :
    (∀ (s : Store) (d : PetCreateInput) (st : String),
      d.status = some st → st ≠ "" → st ∉ validStatuses →
      isValidationErr (createPet s d).1 = true) ∧
    (∀ (s : Store) (d : PetCreateInput),
      d.status = none →
      (∀ cid, d.categoryId = some cid → (Category.findUnique s cid).isSome) →
      createPet s d =
        (.ok (Pet.newRow s d.name "available" d.categoryId),
         { s with pets := s.pets ++ [Pet.newRow s d.name "available" d.categoryId],
                  nextPetId := s.nextPetId + 1, now := s.now + 1 })) := by
  constructor
  · exact createPet_invalid_status_isValidation
  · intro s d hst hcat
    cases hcid : d.categoryId with
    | none =>
        simp [createPet, hcid, createPetChecked, hst, createPetWrite,
          Pet.create, Pet.createRow]
    | some cid =>
        cases hfind : Category.findUnique s cid with
        | none =>
            have h2 := hcat cid hcid
            rw [hfind] at h2
            simp at h2
        | some c =>
            have hfind2 : s.categories.find? (fun c => c.id == cid) = some c := hfind
            have hmem2 := List.mem_of_find?_eq_some hfind2
            have hpc := List.find?_some hfind2
            have hany : (s.categories.any fun c => c.id == cid) = true :=
              List.any_eq_true.mpr ⟨c, hmem2, hpc⟩
            simp [createPet, hcid, hfind, createPetChecked, hst, createPetWrite,
              Pet.create, hany, Pet.createRow, Pet.newRow]

/-- Witness for C2 (amended): a rejected status `weird`, and a default
`available` on an omitted status with a resolving categoryId. -/
theorem createPet_status_enum_and_default_witness :
    isValidationErr (createPet demoStore
      { name := "Rex", status := some "weird", categoryId := none }).1 = true ∧
    createPet demoStore { name := "Rex", status := none, categoryId := some 1 } =
      (.ok (Pet.newRow demoStore "Rex" "available" (some 1)),
       { demoStore with pets := demoStore.pets ++ [Pet.newRow demoStore "Rex" "available" (some 1)],
                        nextPetId := 3, now := 2 }) :=
  ⟨createPet_status_enum_and_default.1 demoStore
      { name := "Rex", status := some "weird", categoryId := none } "weird"
      rfl (by decide) (by decide),
   createPet_status_enum_and_default.2 demoStore
      { name := "Rex", status := none, categoryId := some 1 }
      rfl (by intro cid h; cases h; decide)⟩

/-- C3 counterexample: an update whose categoryId dangles but whose pet id
does not exist fails with NotFound (404), not Validation. -/
theorem updatePet_dangling_category_missing_pet_counterexample :
    (updatePet emptyStore
      { id := 1, name := none, status := none, categoryId := some (some 1) }).1 =
      .error (NotFoundError "Pet not found" (some (.dId 1))) ∧
    isValidationErr (updatePet emptyStore
      { id := 1, name := none, status := none, categoryId := some (some 1) }).1 = false :=
  ⟨by decide, by decide⟩

/-- C3 (amended): a non-null categoryId that does not resolve makes
createPet fail with the category-not-found Validation error and leaves the
store unchanged; the same holds for updatePet provided the pet id exists
(otherwise the NotFound for the pet takes priority). -/
theorem dangling_category_validation_unchanged :
    (∀ (s : Store) (d : PetCreateInput) (cid : Nat),
      d.categoryId = some cid → Category.findUnique s cid = none →
      createPet s d =
        (.error (ValidationError "Category not found" (some (.dCategoryId cid))), s)) ∧
    (∀ (s : Store) (d : PetUpdateInput) (cid : Nat),
      (Pet.findUnique s d.id).isSome →
      d.categoryId = some (some cid) → Category.findUnique s cid = none →
      updatePet s d =
        (.error (ValidationError "Category not found" (some (.dCategoryId cid))), s)) := by
  constructor
  · intro s d cid hcid hfind
    simp [createPet, hcid, hfind]
  · intro s d cid hpet hcid hfind
    cases hp : Pet.findUnique s d.id with
    | none => rw [hp] at hpet; simp at hpet
    | some p0 => simp [updatePet, updatePetOn, hp, hcid, hfind]

/-- Witness for C3 (amended): a dangling categoryId 99 under create and
under update of the existing pet 1, both on `demoStore`. -/
theorem dangling_category_validation_unchanged_witness :
    createPet demoStore { name := "Rex", status := none, categoryId := some 99 } =
      (.error (ValidationError "Category not found" (some (.dCategoryId 99))), demoStore) ∧
    updatePet demoStore
      { id := 1, name := none, status := none, categoryId := some (some 99) } =
      (.error (ValidationError "Category not found" (some (.dCategoryId 99))), demoStore) :=
  ⟨dangling_category_validation_unchanged.1 demoStore
      { name := "Rex", status := none, categoryId := some 99 } 99 rfl (by decide),
   dangling_category_validation_unchanged.2 demoStore
      { id := 1, name := none, status := none, categoryId := some (some 99) } 99
      (by decide) rfl (by decide)⟩

/-- Replacing, in a pet list, the rows matching the id of the row that
`find?` returns yields a list on which the same `find?` returns the
replacement. -/
theorem find?_map_replace (l : List Pet) (id : Nat) (p p2 : Pet)
    (h : l.find? (fun q => q.id == id) = some p) (hid : p2.id = p.id) :
    (l.map fun q => if q.id == p.id then p2 else q).find?
      (fun q => q.id == id) = some p2 := by
  have hpid0 := List.find?_some h
  have hpid : (p.id == id) = true := hpid0
  have hpe : p.id = id := by simpa using hpid
  induction l with
  | nil => simp at h
  | cons a l ih =>
      by_cases ha : (a.id == id) = true
      · rw [List.find?_cons_of_pos (p := fun q : Pet => q.id == id) _ ha] at h
        injection h with h
        subst h
        rw [List.map_cons, if_pos (by simp)]
        exact List.find?_cons_of_pos (p := fun q : Pet => q.id == id) _
          (by show (p2.id == id) = true; rw [hid]; exact hpid)
      · rw [List.find?_cons_of_neg (p := fun q : Pet => q.id == id) _ ha] at h
        rw [List.map_cons, if_neg (by
          intro hc
          exact ha (by simp at hc ⊢; omega))]

        rw [List.find?_cons_of_neg (p := fun q : Pet => q.id == id) _ ha]
        exact ih h

/-- The successful path of `updatePet`: when the pet exists, a supplied
non-null categoryId resolves, and a supplied status is falsy-empty or in
the enum, the service returns the row rewritten by `Pet.applyUpdate` and
replaces exactly that row in the store. -/
theorem updatePet_ok (s : Store) (d : PetUpdateInput) (p : Pet)
    (hp : Pet.findUnique s d.id = some p)
    (hcat : ∀ cid, d.categoryId = some (some cid) → (Category.findUnique s cid).isSome)
    (hst : ∀ st, d.status = some st → st = "" ∨ st ∈ validStatuses) :
    updatePet s d =
      (.ok (Pet.applyUpdate p d.name d.status d.categoryId),
       { s with pets := s.pets.map (fun q =>
           if q.id == p.id then Pet.applyUpdate p d.name d.status d.categoryId
           else q) }) := by
  cases hcid : d.categoryId with
  | none =>
      cases hstv : d.status with
      | none =>
          simp [updatePet, updatePetOn, hp, hcid, updatePetChecked, hstv,
            updatePetWrite, Pet.update, Pet.updateRow]
      | some st =>
          simp [updatePet, updatePetOn, hp, hcid, updatePetChecked, hstv,
            updatePetWrite, Pet.update, Pet.updateRow]
          exact fun h1 => (hst st hstv).resolve_left h1
  | some inner =>
      cases inner with
      | none =>
          cases hstv : d.status with
          | none =>
              simp [updatePet, updatePetOn, hp, hcid, updatePetChecked, hstv,
                updatePetWrite, Pet.update, Pet.updateRow]
          | some st =>
              simp [updatePet, updatePetOn, hp, hcid, updatePetChecked, hstv,
                updatePetWrite, Pet.update, Pet.updateRow]
              exact fun h1 => (hst st hstv).resolve_left h1
      | some cid =>
          have hsome := hcat cid hcid
          cases hfind : Category.findUnique s cid with
          | none => rw [hfind] at hsome; simp at hsome
          | some c =>
              have hfind2 : s.categories.find? (fun c => c.id == cid) = some c := hfind
              have hmem2 := List.mem_of_find?_eq_some hfind2
              have hpc := List.find?_some hfind2
              have hany : (s.categories.any fun c => c.id == cid) = true :=
                List.any_eq_true.mpr ⟨c, hmem2, hpc⟩
              cases hstv : d.status with
              | none =>
                  simp [updatePet, updatePetOn, hp, hcid, hfind, updatePetChecked,
                    hstv, updatePetWrite, Pet.update, hany, Pet.updateRow]
              | some st =>
                  simp [updatePet, updatePetOn, hp, hcid, hfind, updatePetChecked,
                    hstv, updatePetWrite, Pet.update, hany, Pet.updateRow]
                  exact fun h1 => (hst st hstv).resolve_left h1

/-- C4: updating an existing pet (category resolving where supplied,
status acceptable where supplied) keeps every omitted (`undefined`) field
of name, status, categoryId at its stored value, while `categoryId: null`
(the inner `none`) detaches the pet; the row with the pet id becomes
exactly the rewritten row and every other row is untouched; and a P2025
raised by the write itself (row vanished between the advisory read on `s`
and the write on `sWrite`) maps to NotFound, not Internal. -/
theorem updatePet_frame_detach_p2025 :
    (∀ (s : Store) (d : PetUpdateInput) (p : Pet),
      Pet.findUnique s d.id = some p →
      (∀ cid, d.categoryId = some (some cid) → (Category.findUnique s cid).isSome) →
      (∀ st, d.status = some st → st = "" ∨ st ∈ validStatuses) →
      updatePet s d =
        (.ok (Pet.applyUpdate p d.name d.status d.categoryId),
         { s with pets := s.pets.map (fun q =>
             if q.id == p.id then Pet.applyUpdate p d.name d.status d.categoryId
             else q) }) ∧
      Pet.findUnique (updatePet s d).2 d.id =
        some (Pet.applyUpdate p d.name d.status d.categoryId)) ∧
    (∀ (s sWrite : Store) (d : PetUpdateInput),
      (Pet.findUnique s d.id).isSome →
      (∀ cid, d.categoryId = some (some cid) → (Category.findUnique s cid).isSome) →
      (∀ st, d.status = some st → st = "" ∨ st ∈ validStatuses) →
      Pet.findUnique sWrite d.id = none →
      (updatePetOn s sWrite d).1 =
        .error (NotFoundError "Pet not found" (some (.dId d.id)))) := by
  constructor
  · intro s d p hp hcat hst
    have hok := updatePet_ok s d p hp hcat hst
    refine ⟨hok, ?_⟩
    rw [hok]
    have hp2 : s.pets.find? (fun q => q.id == d.id) = some p := hp
    exact find?_map_replace s.pets d.id p _ hp2 rfl
  · intro s sWrite d hpex hcat hst hw
    have hg : ∀ st, d.status = some st → ¬(¬st = "" ∧ st ∉ validStatuses) := by
      intro st hstv hcon
      rcases hst st hstv with h1 | h1
      · exact hcon.1 h1
      · exact hcon.2 h1
    cases hpw : Pet.findUnique s d.id with
    | none => rw [hpw] at hpex; simp at hpex
    | some p0 =>
        cases hcid : d.categoryId with
        | none =>
            cases hstv : d.status with
            | none =>
                simp [updatePetOn, hpw, hcid, updatePetChecked, hstv,
                  updatePetWrite, Pet.update, hw]
            | some st =>
                simp [updatePetOn, hpw, hcid, updatePetChecked, hstv,
                  updatePetWrite, Pet.update, hw]
                rw [if_neg (hg st hstv)]
        | some inner =>
            cases inner with
            | none =>
                cases hstv : d.status with
                | none =>
                    simp [updatePetOn, hpw, hcid, updatePetChecked, hstv,
                      updatePetWrite, Pet.update, hw]
                | some st =>
                    simp [updatePetOn, hpw, hcid, updatePetChecked, hstv,
                      updatePetWrite, Pet.update, hw]
                    rw [if_neg (hg st hstv)]
            | some cid =>
                have hsome := hcat cid hcid
                cases hfind : Category.findUnique s cid with
                | none => rw [hfind] at hsome; simp at hsome
                | some c =>
                    cases hstv : d.status with
                    | none =>
                        simp [updatePetOn, hpw, hcid, hfind, updatePetChecked,
                          hstv, updatePetWrite, Pet.update, hw]
                    | some st =>
                        simp [updatePetOn, hpw, hcid, hfind, updatePetChecked,
                          hstv, updatePetWrite, Pet.update, hw]
                        rw [if_neg (hg st hstv)]

/-- Witness for C4: detaching pet 1 of `demoStore` with name and status
omitted, and the P2025 path where the write snapshot lost the row. -/
theorem updatePet_frame_detach_p2025_witness :
    (updatePet demoStore
      { id := 1, name := none, status := none, categoryId := some none }).1 =
      .ok { id := 1, name := "Balu", status := "available",
            categoryId := none, createdAt := 0 } ∧
    (updatePetOn demoStore emptyStore
      { id := 1, name := none, status := none, categoryId := none }).1 =
      .error (NotFoundError "Pet not found" (some (.dId 1))) := by
  constructor
  · have h := (updatePet_frame_detach_p2025.1 demoStore
      { id := 1, name := none, status := none, categoryId := some none }
      { id := 1, name := "Balu", status := "available", categoryId := some 1,
        createdAt := 0 }
      (by decide) (by intro cid hc; simp at hc) (by intro st hs; simp at hs)).1
    rw [h]
    decide
  · exact updatePet_frame_detach_p2025.2 demoStore emptyStore
      { id := 1, name := none, status := none, categoryId := none }
      (by decide) (by intro cid hc; simp at hc) (by intro st hs; simp at hs)
      (by decide)

/-- C10: a present empty-string status bypasses the enum check in both
createPet — which then persists `available` through the falsy fallback —
and updatePet — which succeeds and writes the empty string through. -/
theorem empty_status_bypass :
    (∀ (s : Store) (name : String),
      createPet s { name := name, status := some "", categoryId := none } =
        (.ok (Pet.newRow s name "available" none),
         { s with pets := s.pets ++ [Pet.newRow s name "available" none],
                  nextPetId := s.nextPetId + 1, now := s.now + 1 })) ∧
    (∀ (s : Store) (id : Nat) (p : Pet),
      Pet.findUnique s id = some p →
      (updatePet s
        { id := id, name := none, status := some "", categoryId := none }).1 =
        .ok (Pet.applyUpdate p none (some "") none)) := by
  constructor
  · intro s name
    rfl
  · intro s id p hp
    have h := updatePet_ok s
      { id := id, name := none, status := some "", categoryId := none } p hp
      (by intro cid hc; simp at hc)
      (by intro st hs; left; injection hs with hs; exact hs.symm)
    rw [h]

/-- Witness for C10: creating `Mia` with an empty status stores
`available`; updating pet 1 with an empty status succeeds and stores the
empty string. -/
theorem empty_status_bypass_witness :
    createPet demoStore { name := "Mia", status := some "", categoryId := none } =
      (.ok (Pet.newRow demoStore "Mia" "available" none),
       { demoStore with pets := demoStore.pets ++ [Pet.newRow demoStore "Mia" "available" none],
                        nextPetId := 3, now := 2 }) ∧
    (updatePet demoStore
      { id := 1, name := none, status := some "", categoryId := none }).1 =
      .ok { id := 1, name := "Balu", status := "", categoryId := some 1,
            createdAt := 0 } := by
  constructor
  · exact empty_status_bypass.1 demoStore "Mia"
  · have h := empty_status_bypass.2 demoStore 1
      { id := 1, name := "Balu", status := "available", categoryId := some 1,
        createdAt := 0 }
      (by decide)
    exact h.trans (by decide)

/-- C5: a PUT /pet body that omits the category field makes the handler
pass the explicit null (`some none`) categoryId to the service, so the
stored pet is detached from its category rather than left unchanged. -/
theorem handler_updatePet_omitted_category_detaches :
    (∀ body : UpdatePetBody, body.category = none →
      updatePetCategoryIdArg body = some none) ∧
    (∀ (s : Store) (body : UpdatePetBody) (i : Nat) (p : Pet),
      body.id = some i → i ≠ 0 → body.category = none → body.status = none →
      Pet.findUnique s i = some p →
      Pet.findUnique (handlerUpdatePet s body).2 i =
        some (Pet.applyUpdate p body.name none (some none)) ∧
      (Pet.applyUpdate p body.name none (some none)).categoryId = none) := by
  constructor
  · intro body hc
    simp [updatePetCategoryIdArg, hc]
  · intro s body i p hid hne hcat hstat hp
    have harg : updatePetCategoryIdArg body = some none := by
      simp [updatePetCategoryIdArg, hcat]
    have hok := updatePet_ok s
      { id := i, name := body.name, status := none, categoryId := some none } p
      hp (by intro cid hc; simp at hc) (by intro st hs; simp at hs)
    have h2 : (handlerUpdatePet s body).2 =
        { s with pets := s.pets.map (fun q =>
            if q.id == p.id then Pet.applyUpdate p body.name none (some none)
            else q) } := by
      simp [handlerUpdatePet, hid, hne, hstat, harg, hok]
    constructor
    · rw [h2]
      have hp2 : s.pets.find? (fun q => q.id == i) = some p := hp
      exact find?_map_replace s.pets i p _ hp2 rfl
    · rfl

/-- Witness for C5: a body with category omitted, applied to `demoStore`
pet 1 which referenced category 1 before the call. -/
theorem handler_updatePet_omitted_category_detaches_witness :
    updatePetCategoryIdArg
      { id := some 1, name := some "Balu", status := none, category := none } =
      some none ∧
    Pet.findUnique (handlerUpdatePet demoStore
      { id := some 1, name := some "Balu", status := none, category := none }).2 1 =
      some { id := 1, name := "Balu", status := "available",
             categoryId := none, createdAt := 0 } := by
  constructor
  · exact handler_updatePet_omitted_category_detaches.1
      { id := some 1, name := some "Balu", status := none, category := none } rfl
  · have h := (handler_updatePet_omitted_category_detaches.2 demoStore
      { id := some 1, name := some "Balu", status := none, category := none } 1
      { id := 1, name := "Balu", status := "available", categoryId := some 1,
        createdAt := 0 }
      rfl (by decide) rfl rfl (by decide)).1
    rw [h]
    decide

/-- C8 counterexample: an untyped failure reaching the central Fastify
errorHandler is answered with code INTERNAL_SERVER_ERROR and message
`Internal server error`, which differs from the INTERNAL_ERROR body with
message `An unexpected error occurred` that the claim states for every
untyped failure reaching the error translation step. -/
theorem errorHandler_untyped_counterexample :
    errorHandler false (.fastify genericThrownError) =
      sendError 500 "INTERNAL_SERVER_ERROR" "Internal server error" none ∧
    sendError 500 "INTERNAL_SERVER_ERROR" "Internal server error" none ≠
      sendError 500 "INTERNAL_ERROR" "An unexpected error occurred" none :=
  ⟨by decide, by decide⟩

/-- C8 (amended): failures caught in the operation handlers reach
`handleError`, which emits each of the four typed kinds as its code,
message and details with that kind's httpStatus (404, 422, 400, and the
stored statusCode in general), and every untyped failure as exactly the
INTERNAL_ERROR body, status 500, message `An unexpected error occurred`,
no details; the central Fastify errorHandler instead answers untyped
failures with `error.code || INTERNAL_SERVER_ERROR` and the masked
message `Internal server error` at `error.statusCode || 500`. -/
theorem handleError_translation :
    (∀ e : AppError, handleError (.app e) =
      sendError e.statusCode e.code e.message e.details) ∧
    (∀ m d, handleError (.app (NotFoundError m d)) = sendError 404 "NOT_FOUND" m d) ∧
    (∀ m d, handleError (.app (ValidationError m d)) =
      sendError 422 "VALIDATION_ERROR" m d) ∧
    (∀ m d, handleError (.app (BadRequestError m d)) =
      sendError 400 "BAD_REQUEST" m d) ∧
    (∀ n m, handleError (.other n m) =
      sendError 500 "INTERNAL_ERROR" "An unexpected error occurred" none) :=
  ⟨fun _ => rfl, fun _ _ => rfl, fun _ _ => rfl, fun _ _ => rfl, fun _ _ => rfl⟩

/-- C7: findPetsByStatus rejects a status outside the enum with a
BadRequest error (code BAD_REQUEST, status 400) and not a Validation
error, in contrast with createPet, whose bad (truthy) status raises a
Validation error; an omitted status argument defaults to `available`. -/
theorem findPetsByStatus_badrequest_and_default :
    (∀ (s : Store) (st : String), st ∉ validStatuses →
      (findPetsByStatus s (some st)).1 =
        .error (BadRequestError "Invalid status value"
          (some (.dStatus st validStatuses))) ∧
      isValidationErr (findPetsByStatus s (some st)).1 = false) ∧
    (∀ s : Store, findPetsByStatus s none = findPetsByStatus s (some "available")) ∧
    (∀ (s : Store) (d : PetCreateInput) (st : String),
      d.status = some st → st ≠ "" → st ∉ validStatuses →
      isValidationErr (createPet s d).1 = true) := by
  refine ⟨?_, fun s => rfl, createPet_invalid_status_isValidation⟩
  intro s st hmem
  constructor
  · simp [findPetsByStatus, hmem]
  · simp [findPetsByStatus, hmem, isValidationErr, BadRequestError]

/-- Witness for C7: the status `weird` on `demoStore`, and the omitted
status defaulting. -/
theorem findPetsByStatus_badrequest_and_default_witness :
    (findPetsByStatus demoStore (some "weird")).1 =
      .error (BadRequestError "Invalid status value"
        (some (.dStatus "weird" validStatuses))) ∧
    findPetsByStatus demoStore none = findPetsByStatus demoStore (some "available") :=
  ⟨(findPetsByStatus_badrequest_and_default.1 demoStore "weird" (by decide)).1,
   findPetsByStatus_badrequest_and_default.2.1 demoStore⟩

/-- C6 counterexample: deleting category 1 of `demoStore`, referenced by
exactly one pet, fails with details.petCount 1, but the message is a
fixed string in which the pet count `1` does not occur. -/
theorem deleteCategory_message_counterexample :
    (deleteCategory demoStore 1).1 =
      .error (ValidationError
        "Cannot delete category with associated pets. Please remove or reassign pets first."
        (some (.dIdPetCount 1 1))) ∧
    ¬ ("1".toList <:+:
      "Cannot delete category with associated pets. Please remove or reassign pets first.".toList) :=
  ⟨by decide, by set_option maxRecDepth 8192 in decide⟩

/-- C6 (amended): deleting a category referenced by at least one pet
fails with the Validation error whose details.petCount is exactly the
number of referencing pets (the message is a fixed string that does not
state the count); deleting a category with zero referencing pets succeeds
and a subsequent getCategoryById for that id fails with NotFound. -/
theorem deleteCategory_petcount_and_empty :
    (∀ (s : Store) (id : Nat) (c : Category),
      1 ≤ id → Category.findUnique s id = some c → petsOf s id ≠ [] →
      (deleteCategory s id).1 =
        .error (ValidationError
          "Cannot delete category with associated pets. Please remove or reassign pets first."
          (some (.dIdPetCount id (petsOf s id).length)))) ∧
    (∀ (s : Store) (id : Nat) (c : Category),
      1 ≤ id → Category.findUnique s id = some c → petsOf s id = [] →
      (deleteCategory s id).1 = .ok () ∧
      (getCategoryById (deleteCategory s id).2 id).1 =
        .error (NotFoundError "Category not found" (some (.dId id)))) := by
  constructor
  · intro s id c hid hc hne
    have h0 : ¬ id < 1 := by omega
    have hlen : 0 < (petsOf s id).length := List.length_pos.mpr hne
    simp [deleteCategory, h0, hc, hlen]
  · intro s id c hid hc hemp
    have h0 : ¬ id < 1 := by omega
    have hdel : deleteCategory s id = (.ok (), { s with
        categories := s.categories.filter (fun c2 => c2.id != id),
        pets := s.pets.map (fun p =>
          if p.categoryId == some id then { p with categoryId := none } else p) }) := by
      simp [deleteCategory, h0, hc, hemp, Category.delete]
    have hfn : (s.categories.filter (fun c2 => c2.id != id)).find?
        (fun c2 => c2.id == id) = none := by
      rw [List.find?_eq_none]
      intro x hx
      have hx2 := (List.mem_filter.mp hx).2
      simp only [bne_iff_ne, ne_eq, decide_not] at hx2
      simp only [beq_iff_eq]
      intro hcon
      rw [hcon] at hx2
      simp at hx2
    refine ⟨by rw [hdel], ?_⟩
    rw [hdel]
    simp [getCategoryById, h0, Category.findUnique, hfn]

/-- Witness for C6 (amended): category 1 of `demoStore` with one
referencing pet; category 1 of the pet-free store `emptyCatStore`. -/
theorem deleteCategory_petcount_and_empty_witness :
    (deleteCategory demoStore 1).1 =
      .error (ValidationError
        "Cannot delete category with associated pets. Please remove or reassign pets first."
        (some (.dIdPetCount 1 (petsOf demoStore 1).length))) ∧
    (deleteCategory { demoStore with pets := [] } 1).1 = .ok () ∧
    (getCategoryById (deleteCategory { demoStore with pets := [] } 1).2 1).1 =
      .error (NotFoundError "Category not found" (some (.dId 1))) :=
  ⟨deleteCategory_petcount_and_empty.1 demoStore 1 { id := 1, name := "Dogs" }
      (by decide) (by decide) (by decide),
   (deleteCategory_petcount_and_empty.2 { demoStore with pets := [] } 1
      { id := 1, name := "Dogs" } (by decide) (by decide) (by decide)).1,
   (deleteCategory_petcount_and_empty.2 { demoStore with pets := [] } 1
      { id := 1, name := "Dogs" } (by decide) (by decide) (by decide)).2⟩

/-- `find?` skips a prefix on which it fails. -/
theorem find?_append_of_none {α : Type} (p : α → Bool) (l1 l2 : List α)
    (h : l1.find? p = none) : (l1 ++ l2).find? p = l2.find? p := by
  induction l1 with
  | nil => simp
  | cons a l ih =>
      rw [List.find?_eq_none] at h
      have ha : ¬ p a = true := h a (List.mem_cons_self a l)
      rw [List.cons_append, List.find?_cons_of_neg _ ha]
      exact ih (List.find?_eq_none.mpr (fun x hx => h x (List.mem_cons_of_mem a hx)))

/-- C9: when createCategory succeeds on a well-formed store, the returned
category carries exactly the trimmed input name and a fresh positive id
(distinct from every pre-existing category id), and getCategoryById on
the returned id retrieves exactly the created category. -/
theorem createCategory_roundtrip (s : Store) (name : String) (c : Category)
    (s2 : Store) (hwf : s.categoriesWF)
    (h : createCategory s name = (.ok c, s2)) :
    c.name = trim name ∧ 1 ≤ c.id ∧ (∀ c0 ∈ s.categories, c0.id ≠ c.id) ∧
    (getCategoryById s2 c.id).1 = .ok c := by
  have hn1 : 1 ≤ s.nextCategoryId := hwf.1
  unfold createCategory createCategoryOn at h
  by_cases hg : name = "" ∨ (trim name).length = 0
  · rw [if_pos hg] at h
    simp at h
  · rw [if_neg hg] at h
    cases hfind : Category.findFirstByName s name with
    | some c0 =>
        rw [hfind] at h
        simp at h
    | none =>
        rw [hfind] at h
        unfold Category.create at h
        by_cases hany : (s.categories.any fun c2 => c2.name == trim name) = true
        · rw [if_pos hany] at h
          simp at h
        · rw [if_neg hany] at h
          simp only [Prod.mk.injEq] at h
          obtain ⟨h1, h2⟩ := h
          injection h1 with h1
          subst h1
          subst h2
          refine ⟨rfl, hn1, ?_, ?_⟩
          · intro c0 hc0
            have := hwf.2 c0 hc0
            simp only []
            omega
          · unfold getCategoryById
            rw [if_neg (by simp only []; omega)]
            have hfn : (s.categories.find? fun c2 =>
                c2.id == s.nextCategoryId) = none := by
              rw [List.find?_eq_none]
              intro x hx
              have := hwf.2 x hx
              simp only [beq_iff_eq]
              omega
            have hfu : Category.findUnique
                { s with
                    categories :=
                      s.categories ++ [{ id := s.nextCategoryId, name := trim name }],
                    nextCategoryId := s.nextCategoryId + 1 } s.nextCategoryId =
                some { id := s.nextCategoryId, name := trim name } := by
              unfold Category.findUnique
              simp only []
              rw [find?_append_of_none _ _ _ hfn]
              simp
            rw [hfu]

/-- Witness for C9: creating `  Birds  ` on `demoStore` stores the
trimmed name `Birds` under the fresh id 2 and getCategoryById finds it. -/
theorem createCategory_roundtrip_witness :
    ({ id := 2, name := "Birds" } : Category).name = trim "  Birds  " ∧
    (getCategoryById demoStoreAfterBirds 2).1 = .ok { id := 2, name := "Birds" } := by
  have h := createCategory_roundtrip demoStore "  Birds  "
    { id := 2, name := "Birds" } demoStoreAfterBirds
    (by constructor <;> decide) (by decide)
  exact ⟨h.1, h.2.2.2⟩

end Petstore
